import Mathlib

/-!
Verification development for python-distilclient.

We shallowly embed the client bootstrap of `distilclient/v2/client.py`
(`Client.__init__`, `Client._get_keystone_client`, the deprecated-argument
check), the module constants of `distilclient/__init__.py`, and the
resource/manager surface exercised by the unit tests.  External
collaborators (the keystone session, discovery, the service catalog) are
modelled as an explicit environment record; the constructor becomes a pure
function from arguments and environment to an outcome, an event trace of
external interactions, and the list of emitted warnings.
-/

namespace Distil

/-- Python truthiness for an optional string: `None` and `""` are falsy. -/
def truthy : Option String → Bool
  | none => false
  | some s => !(s == "")

/-- Python's `a or b` on optional strings: the first operand when truthy,
otherwise the second. -/
def pyOr (a b : Option String) : Option String :=
  if truthy a then a else b

/-- `d.get(k)` on a dict modelled as an association list with string values. -/
def aget (l : List (String × String)) (k : String) : Option String :=
  l.lookup k

/-- A service-catalog entry, a string-valued dict. -/
abbrev CatEntry := List (String × String)

/-- ASCII lowercasing of one character, as `str.lower()` does on the ASCII
endpoint-type selectors. -/
def asciiLower (c : Char) : Char :=
  if 65 ≤ c.toNat ∧ c.toNat ≤ 90 then Char.ofNat (c.toNat + 32) else c

/-- Whether the first list occurs at the head of the second. -/
def matchesAt : List Char → List Char → Bool
  | [], _ => true
  | _ :: _, [] => false
  | a :: as, b :: bs => a == b && matchesAt as bs

/-- The characters before the first occurrence of `url`: the `[0]`
component of Python's `split("url")`. -/
def takeUntilUrl : List Char → List Char
  | [] => []
  | c :: rest =>
    if matchesAt ['u', 'r', 'l'] (c :: rest) then []
    else c :: takeUntilUrl rest

/-- `endpoint_type.lower().split("url")[0]`, e.g. `"publicURL" ↦ "public"`. -/
def interfacePrefix (et : String) : String :=
  ⟨takeUntilUrl (et.data.map asciiLower)⟩

/-- `catalog_entry.get("region", catalog_entry.get("region_id"))`. -/
def entryRegion (e : CatEntry) : Option String :=
  match aget e "region" with
  | some r => some r
  | none => aget e "region_id"

/-- The loop condition of `Client.__init__` lines 166-168: the entry's
`interface` equals the lowercased endpoint type stripped of its `url`
suffix, or the entry carries a truthy key named after the endpoint type. -/
def entryMatches (et : String) (e : CatEntry) : Bool :=
  aget e "interface" == some (interfacePrefix et) || truthy (aget e et)

/-- Lines 169-173: skip the entry when a region name is requested (truthy)
and differs from the entry's region (with `region_id` fallback). -/
def regionSkip (rn : Option String) (e : CatEntry) : Bool :=
  truthy rn && !(rn == entryRegion e)

/-- The URL taken from a matched entry, lines 174-175:
`catalog_entry.get("url", catalog_entry.get(endpoint_type))`. -/
def entryUrl (et : String) (e : CatEntry) : Option String :=
  match aget e "url" with
  | some u => some u
  | none => aget e et

/-- Result of the catalog scan loop: either the loop broke at some entry
(taking its possibly-missing URL) or it ran off the end. -/
inductive ScanResult where
  | found (u : Option String)
  | nomatch
deriving Repr, DecidableEq

/-- The `for catalog_entry in catalog` loop of lines 165-176: take the first
entry satisfying the match condition whose region is not skipped, and break
with its URL (which may itself be absent). -/
def scanCatalog (et : String) (rn : Option String) : List CatEntry → ScanResult
  | [] => .nomatch
  | e :: rest =>
    if entryMatches et e then
      if regionSkip rn e then scanCatalog et rn rest
      else .found (entryUrl et e)
    else scanCatalog et rn rest

/-- Typed outcomes of constructor failure, mirroring the exception classes
raised in `client.py`. -/
inductive InitError where
  | clientException (msg : String)
  | runtimeError (msg : String)
  | commandError (msg : String)
deriving Repr, DecidableEq

/-- Which keystone protocol version `_get_keystone_client` settles on. -/
inductive KsVersion where
  | v3 (url : String)
  | v2 (url : String)
deriving Repr, DecidableEq

/-- The version-selection core of `_get_keystone_client` (lines 236-271):
prefer the v3 endpoint when discovery reports one, fall back to v2, and
fail with a `CommandError` when neither is available. -/
def getKeystoneVersion (v2u v3u : Option String) : Except InitError KsVersion :=
  if truthy v3u then .ok (.v3 (v3u.getD ""))
  else if truthy v2u then .ok (.v2 (v2u.getD ""))
  else .error (.commandError
    ("Unable to determine the Keystone version to authenticate "
      ++ "with using the given auth_url."))

/-- External interactions performed during construction. -/
inductive Event where
  | sessionGetToken
  | ksDiscover
  | ksAuthenticate
  | sessionGetEndpoint
  | catalogGetEndpoints
deriving Repr, DecidableEq

/-- The deprecated-argument table of `check_deprecated_arguments`
(lines 103-109), in Python dict insertion order. -/
def deprecatedTable : List (String × Option String) :=
  [("share_service_name", some "service_name"),
   ("proxy_tenant_id", none),
   ("proxy_token", none),
   ("os_cache", some "use_keyring"),
   ("api_key", some "password")]

/-- The warning text built at lines 115-123. -/
def deprecationMsg (arg : String) (repl : Option String) : String :=
  "Argument " ++ arg ++ " is deprecated."
    ++ (match repl with
        | some r => " Use " ++ r ++ " instead."
        | none => "")

/-- `check_deprecated_arguments` (lines 102-124): one warning per table
entry present in `**kwargs` (the check is `kwargs.get(arg, None) is None`,
so any present key warns). -/
def checkDeprecatedArguments (kwargs : List (String × String)) : List String :=
  deprecatedTable.filterMap fun p =>
    match aget kwargs p.1 with
    | none => none
    | some _ => some (deprecationMsg p.1 p.2)

/-- Constructor arguments of `Client.__init__` that the modelled behaviour
depends on.  `api_key` is a named parameter of the Python constructor, so a
caller-supplied `api_key=...` binds here and can never appear in `kwargs`. -/
structure ClientArgs where
  username : Option String := none
  api_key : Option String := none
  project_id : Option String := none
  auth_url : Option String := none
  tenant_id : Option String := none
  project_name : Option String := none
  region_name : Option String := none
  endpoint_type : String := "publicURL"
  service_type : String := "rating"
  input_auth_token : Option String := none
  useSession : Bool := false
  distil_url : Option String := none
  api_version : String := "2"
  password : Option String := none
  kwargs : List (String × String) := []

/-- Behaviour of the external collaborators during one construction. -/
structure Env where
  sessionToken : Option String := none
  sessionEndpoint : Option String := none
  ksV2Url : Option String := none
  ksV3Url : Option String := none
  keystoneToken : Option String := none
  catalog : List CatEntry := []

/-- The fields of the constructed client that the claims talk about. -/
structure ClientState where
  username : Option String
  password : Option String
  auth_token : Option String
  distil_url : Option String
  api_version : String
deriving Repr

/-- Outcome of running the constructor: the returned client or the raised
exception, plus the trace of external interactions and the warnings. -/
structure InitResult where
  outcome : Except InitError ClientState
  events : List Event
  warnings : List String

/-- Token resolution, lines 140-153: an explicitly supplied truthy token
short-circuits; else a session yields its token; else a keystone client is
built (discovery then authenticate) and its token taken. -/
def resolveToken (args : ClientArgs) (env : Env) :
    Except InitError (Option String) × List Event :=
  if truthy args.input_auth_token then (.ok args.input_auth_token, [])
  else if args.useSession then (.ok env.sessionToken, [.sessionGetToken])
  else
    match getKeystoneVersion env.ksV2Url env.ksV3Url with
    | .error e => (.error e, [.ksDiscover])
    | .ok _ => (.ok env.keystoneToken, [.ksDiscover, .ksAuthenticate])

/-- Endpoint resolution, lines 158-176: with a session and no URL, ask the
session; with no session and no URL, scan the catalog; otherwise keep the
supplied URL. -/
def resolveUrl (args : ClientArgs) (env : Env) :
    Option String × List Event :=
  if args.useSession && !(truthy args.distil_url) then
    (env.sessionEndpoint, [.sessionGetEndpoint])
  else if !(truthy args.distil_url) then
    (match scanCatalog args.endpoint_type args.region_name env.catalog with
     | .found u => u
     | .nomatch => args.distil_url, [.catalogGetEndpoints])
  else (args.distil_url, [])

/-- `Client.__init__` (lines 55-199), as a pure function: field assignments,
the deprecated-argument warnings, the token/URL configuration check, token
resolution, endpoint resolution, and the final constructed state. -/
def clientInit (args : ClientArgs) (env : Env) : InitResult :=
  let pw := pyOr args.password args.api_key
  let warns := checkDeprecatedArguments args.kwargs
  if truthy args.input_auth_token && !(truthy args.distil_url) then
    { outcome := .error (.clientException
        ("For token-based authentication you should "
          ++ "provide 'input_auth_token' and 'distil_url'.")),
      events := [], warnings := warns }
  else
    match resolveToken args env with
    | (.error e, evs) => { outcome := .error e, events := evs, warnings := warns }
    | (.ok tok, evs) =>
      if !(truthy tok) then
        { outcome := .error (.runtimeError "Not Authorized"),
          events := evs, warnings := warns }
      else
        let r := resolveUrl args env
        if !(truthy r.1) then
          { outcome := .error (.runtimeError "Could not find Distil endpoint in catalog"),
            events := evs ++ r.2, warnings := warns }
        else
          { outcome := .ok { username := args.username, password := pw,
                             auth_token := tok, distil_url := r.1,
                             api_version := args.api_version },
            events := evs ++ r.2, warnings := warns }

/-- An optional string that is truthy is in particular not `None`. -/
theorem truthy_ne_none {x : Option String} (h : truthy x = true) : x ≠ none := by
  cases x with
  | none => simp [truthy] at h
  | some s => simp

/-- The claim's reading of the catalog scan: an entry qualifies only when
its `interface` field equals the endpoint-type selector (lowercased,
stripped of its `url` suffix); the legacy endpoint-type-keyed form does not
qualify. -/
def claimEntryMatches (et : String) (e : CatEntry) : Bool :=
  aget e "interface" == some (interfacePrefix et)

/-- First catalog entry matching the claim's predicate, with the region
filter applied. -/
def claimFirstMatch (et : String) (rn : Option String)
    (catalog : List CatEntry) : Option CatEntry :=
  catalog.find? fun e => claimEntryMatches et e && !(regionSkip rn e)

/-- The amended reading of the scan, written as a first-match search: an
entry qualifies when its `interface` equals the selector prefix or it
carries a truthy key named after the selector, and its region (with
`region_id` fallback) equals the requested region when one is requested. -/
def amendedFirstMatch (et : String) (rn : Option String)
    (catalog : List CatEntry) : Option CatEntry :=
  catalog.find? fun e => entryMatches et e && !(regionSkip rn e)

/-- The break-at-first-match loop agrees with the first-match search. -/
theorem scanCatalog_eq_firstMatch (et : String) (rn : Option String)
    (catalog : List CatEntry) :
    scanCatalog et rn catalog =
      match amendedFirstMatch et rn catalog with
      | some e => .found (entryUrl et e)
      | none => .nomatch := by
  induction catalog with
  | nil => rfl
  | cons e rest ih =>
    by_cases hm : entryMatches et e
    · by_cases hs : regionSkip rn e
      · simpa [scanCatalog, amendedFirstMatch, List.find?, hm, hs]
          using ih
      · simp [scanCatalog, amendedFirstMatch, List.find?, hm, hs]
    · simpa [scanCatalog, amendedFirstMatch, List.find?, hm]
        using ih

/-- Python values appearing in resource mappings: strings and integers. -/
inductive PyVal where
  | s (v : String)
  | i (v : Int)
deriving Repr, DecidableEq

/-- `str(value)` as used by `%s` formatting. -/
def PyVal.render : PyVal → String
  | .s v => v
  | .i v => toString v

/-- Modelled from the spec: `Resource` of `common/apiclient/base.py` is not
under `src/` (only its unit tests are).  Per §3 it is an immutable snapshot
of a mapping from field name to value, here an association list with
distinct keys in dict order. -/
structure Resource where
  info : List (String × PyVal)
deriving Repr, DecidableEq

/-- The optional identifier: the `id` field of the backing data, when
present. -/
def Resource.idField (r : Resource) : Option PyVal :=
  r.info.lookup "id"

/-- Whether the resource defines an identifier. -/
def Resource.hasId (r : Resource) : Bool :=
  r.idField.isSome

/-- Modelled from the spec: Resource equality (§3).  Equal iff both define
an identifier and the identifiers agree, or neither does and the backing
mappings are identical; unequal when exactly one defines an identifier. -/
def Resource.eq (r1 r2 : Resource) : Bool :=
  match r1.idField, r2.idField with
  | some i1, some i2 => i1 == i2
  | none, none => r1.info == r2.info
  | _, _ => false

/-- Modelled from the spec: the inequality operator is defined explicitly
as the negation of equality (§4.1). -/
def Resource.ne (r1 r2 : Resource) : Bool :=
  !(Resource.eq r1 r2)

/-- Alphabetical order on field entries, by field name. -/
def fieldLE (p q : String × PyVal) : Prop :=
  p.1 ≤ q.1

instance : DecidableRel fieldLE := fun p q =>
  inferInstanceAs (Decidable (p.1 ≤ q.1))

instance : IsTotal (String × PyVal) fieldLE :=
  ⟨fun a b => le_total a.1 b.1⟩

instance : IsTrans (String × PyVal) fieldLE :=
  ⟨fun _ _ _ h1 h2 => le_trans h1 h2⟩

/-- The fields of a resource in alphabetical order of their names. -/
def sortFields (l : List (String × PyVal)) : List (String × PyVal) :=
  l.insertionSort fieldLE

/-- One `name=value` fragment of the display form. -/
def renderField (p : String × PyVal) : String :=
  p.1 ++ "=" ++ p.2.render

/-- Modelled from the spec: the `__repr__` display form (§4.1): attribute
names sorted alphabetically, rendered `<ClassName field1=value1, ...>`. -/
def Resource.reprForm (className : String) (r : Resource) : String :=
  "<" ++ className ++ " "
    ++ String.intercalate ", " ((sortFields r.info).map renderField) ++ ">"

/-- Python truthiness of an optional list argument. -/
def truthyList : Option (List String) → Bool
  | none => false
  | some l => !l.isEmpty

/-- Modelled from the spec: `ProductManager.list` of `v2/products.py` is not
under `src/` (only its unit tests are).  Per §4.2/§8 a list call with no
filters hits the bare collection path, and a regions filter is serialized
as one comma-joined `?regions=` query parameter in the order given. -/
def productsListUrl (regions : Option (List String)) : String :=
  if truthyList regions then
    "/v2/products?regions=" ++ String.intercalate "," (regions.getD [])
  else "/v2/products"

/-- `distilclient/__init__.py` line 30. -/
def API_MAX_VERSION : String := "1"

/-- `distilclient/__init__.py` line 31. -/
def API_MIN_VERSION : String := "2"

/-- `distilclient/__init__.py` line 32. -/
def API_DEPRECATED_VERSION : List String := []

/-- C4: `_get_keystone_client` auto-discovers the supported identity
protocol versions and prefers v3 whenever it is available, uses v2 only
when v3 is absent, and fails with a `CommandError` about being unable to
determine the version when neither is discoverable. -/
theorem c4_keystone_version_discovery (v2u v3u : Option String) :
    (truthy v3u = true →
      getKeystoneVersion v2u v3u = .ok (.v3 (v3u.getD ""))) ∧
    (truthy v3u = false → truthy v2u = true →
      getKeystoneVersion v2u v3u = .ok (.v2 (v2u.getD ""))) ∧
    (truthy v3u = false → truthy v2u = false →
      getKeystoneVersion v2u v3u = .error (.commandError
        ("Unable to determine the Keystone version to authenticate "
          ++ "with using the given auth_url."))) := by
  refine ⟨?_, ?_, ?_⟩
  · intro h3
    simp [getKeystoneVersion, h3]
  · intro h3 h2
    simp [getKeystoneVersion, h3, h2]
  · intro h3 h2
    simp [getKeystoneVersion, h3, h2]

/-- Witness for C4 at concrete discovery outcomes. -/
theorem c4_keystone_version_witness :
    getKeystoneVersion (some "http://ks/v2.0") (some "http://ks/v3")
      = .ok (.v3 "http://ks/v3") ∧
    getKeystoneVersion (some "http://ks/v2.0") none
      = .ok (.v2 "http://ks/v2.0") ∧
    getKeystoneVersion none none = .error (.commandError
      ("Unable to determine the Keystone version to authenticate "
        ++ "with using the given auth_url.")) :=
  ⟨(c4_keystone_version_discovery (some "http://ks/v2.0") (some "http://ks/v3")).1 rfl,
   (c4_keystone_version_discovery (some "http://ks/v2.0") none).2.1 rfl rfl,
   (c4_keystone_version_discovery none none).2.2 rfl rfl⟩

/-- C5 (code bug): supplying the legacy `api_key` argument emits no warning
at all, because `api_key` is a named parameter of `__init__` and therefore
never reaches `**kwargs`, while `check_deprecated_arguments` only inspects
`kwargs`; deprecated arguments that do travel through `kwargs` (such as
`share_service_name`) warn exactly once as the spec describes. -/
theorem c5_api_key_warning_bug :
    (clientInit { api_key := some "key", input_auth_token := some "tok",
                  distil_url := some "http://distil.example" } {}).warnings = [] ∧
    (clientInit { api_key := some "key", input_auth_token := some "tok",
                  distil_url := some "http://distil.example" } {}).outcome
      = .ok { username := none, password := some "key", auth_token := some "tok",
              distil_url := some "http://distil.example", api_version := "2" } ∧
    checkDeprecatedArguments [("share_service_name", "srv")]
      = ["Argument share_service_name is deprecated. Use service_name instead."] :=
  ⟨rfl, rfl, rfl⟩

/-- C6: two Resources are equal iff both carry an identifier and the
identifiers agree, or neither carries one and the backing mappings are
identical; when exactly one carries an identifier they are unequal; and
the inequality operator is always the negation of equality. -/
theorem c6_resource_equality (r1 r2 : Resource) :
    (Resource.eq r1 r2 = true ↔
      ((∃ v, r1.idField = some v ∧ r2.idField = some v) ∨
        (r1.idField = none ∧ r2.idField = none ∧ r1.info = r2.info))) ∧
    (r1.hasId ≠ r2.hasId → Resource.eq r1 r2 = false) ∧
    Resource.ne r1 r2 = !(Resource.eq r1 r2) := by
  refine ⟨?_, ?_, rfl⟩
  · unfold Resource.eq
    cases h1 : r1.idField with
    | none =>
      cases h2 : r2.idField with
      | none => simp [beq_iff_eq]
      | some v2 => simp
    | some v1 =>
      cases h2 : r2.idField with
      | none => simp
      | some v2 =>
        simp only [beq_iff_eq, Option.some.injEq]
        constructor
        · intro h
          exact Or.inl ⟨v2, h, rfl⟩
        · rintro (⟨v, rfl, hv2⟩ | ⟨hv, -⟩)
          · exact hv2.symm
          · exact absurd hv (by simp)
  · intro hne
    unfold Resource.hasId at hne
    unfold Resource.eq
    cases h1 : r1.idField <;> cases h2 : r2.idField <;> simp_all

/-- Witness for C6 at the unit test's resources: same id with differing
other fields compare equal, inequality is consistent, and an id-carrying
resource differs from an id-less one. -/
theorem c6_resource_equality_witness :
    Resource.ne ⟨[("id", .i 1), ("name", .s "hi")]⟩
        ⟨[("id", .i 1), ("name", .s "hello")]⟩
      = !(Resource.eq ⟨[("id", .i 1), ("name", .s "hi")]⟩
          ⟨[("id", .i 1), ("name", .s "hello")]⟩) ∧
    Resource.eq ⟨[("name", .s "joe")]⟩ ⟨[("id", .i 1), ("name", .s "joe")]⟩
      = false :=
  ⟨(c6_resource_equality ⟨[("id", .i 1), ("name", .s "hi")]⟩
      ⟨[("id", .i 1), ("name", .s "hello")]⟩).2.2,
   (c6_resource_equality ⟨[("name", .s "joe")]⟩
      ⟨[("id", .i 1), ("name", .s "joe")]⟩).2.1 (by decide)⟩

/-- C7: the display form renders field names in alphabetical order, and the
resource built from `{"foo": "bar", "baz": "spam"}` renders exactly as
`<Resource baz=spam, foo=bar>`. -/
theorem c7_repr_alphabetical :
    (∀ r : Resource, List.Sorted fieldLE (sortFields r.info)) ∧
    Resource.reprForm "Resource" ⟨[("foo", .s "bar"), ("baz", .s "spam")]⟩
      = "<Resource baz=spam, foo=bar>" := by
  constructor
  · intro r
    exact List.sorted_insertionSort fieldLE r.info
  · have h : ¬ fieldLE ("foo", PyVal.s "bar") ("baz", PyVal.s "spam") := by
      simp only [fieldLE, String.le_iff_toList_le]
      decide
    simp only [Resource.reprForm, sortFields, List.insertionSort,
      List.orderedInsert, if_neg h]
    rfl

/-- C8: the products list URL is the bare collection path with no filters
(absent or empty), and a regions filter is appended as a single
comma-joined `?regions=` query parameter in the order given. -/
theorem c8_products_list_url :
    productsListUrl none = "/v2/products" ∧
    productsListUrl (some []) = "/v2/products" ∧
    (∀ a b : String, productsListUrl (some [a, b])
      = "/v2/products?regions=" ++ (a ++ "," ++ b)) ∧
    productsListUrl (some ["nz-hlz-1", "nz-por-1"])
      = "/v2/products?regions=nz-hlz-1,nz-por-1" := by
  refine ⟨rfl, rfl, ?_, rfl⟩
  intro a b
  rfl

/-- C10: the module constants declare `API_MAX_VERSION = '1'` and
`API_MIN_VERSION = '2'`, so the declared maximum is strictly below the
declared minimum, and the deprecated-version list is empty. -/
theorem c10_api_version_constants :
    API_MAX_VERSION = "1" ∧ API_MIN_VERSION = "2" ∧
    API_MAX_VERSION < API_MIN_VERSION ∧ API_DEPRECATED_VERSION = [] := by
  refine ⟨rfl, rfl, ?_, rfl⟩
  rw [show API_MAX_VERSION = "1" from rfl, show API_MIN_VERSION = "2" from rfl,
    String.lt_iff_toList_lt]
  decide

/-- C1: whenever the constructor returns normally, the held token and the
resolved service URL are truthy, in particular non-null; the error cases of
`clientInit` are the only other outcomes, so whenever either value cannot
be obtained an exception is raised instead. -/
theorem c1_constructed_client_invariant (args : ClientArgs) (env : Env)
    (st : ClientState) (h : (clientInit args env).outcome = .ok st) :
    truthy st.auth_token = true ∧ truthy st.distil_url = true ∧
    st.auth_token ≠ none ∧ st.distil_url ≠ none := by
  unfold clientInit at h
  dsimp only at h
  split at h
  · simp at h
  · split at h
    · simp at h
    · rename_i tok evs heq
      split at h
      · simp at h
      · rename_i htok
        split at h
        · simp at h
        · rename_i hurl
          simp only [Except.ok.injEq] at h
          subst h
          refine ⟨?_, ?_, ?_, ?_⟩
          · simpa using htok
          · simpa using hurl
          · exact truthy_ne_none (by simpa using htok)
          · exact truthy_ne_none (by simpa using hurl)

/-- Witness for C1: a construction from an explicit token and URL returns
normally and the invariant holds there. -/
theorem c1_constructed_client_invariant_witness :
    truthy (ClientState.auth_token
      { username := none, password := none, auth_token := some "tok",
        distil_url := some "http://distil.example", api_version := "2" }) = true ∧
    truthy (ClientState.distil_url
      { username := none, password := none, auth_token := some "tok",
        distil_url := some "http://distil.example", api_version := "2" }) = true ∧
    (ClientState.auth_token
      { username := none, password := none, auth_token := some "tok",
        distil_url := some "http://distil.example", api_version := "2" }) ≠ none ∧
    (ClientState.distil_url
      { username := none, password := none, auth_token := some "tok",
        distil_url := some "http://distil.example", api_version := "2" }) ≠ none :=
  c1_constructed_client_invariant
    { input_auth_token := some "tok", distil_url := some "http://distil.example" }
    {} _ rfl

/-- C2: a truthy explicit token with no service URL makes the constructor
raise the typed `ClientException` configuration error, with an empty
external-interaction trace — before any network call. -/
theorem c2_token_without_url (args : ClientArgs) (env : Env)
    (h1 : truthy args.input_auth_token = true)
    (h2 : truthy args.distil_url = false) :
    (clientInit args env).outcome = .error (.clientException
      ("For token-based authentication you should "
        ++ "provide 'input_auth_token' and 'distil_url'.")) ∧
    (clientInit args env).events = [] := by
  unfold clientInit
  simp [h1, h2]

/-- Witness for C2 at a concrete token-only invocation. -/
theorem c2_token_without_url_witness :
    (clientInit { input_auth_token := some "tok" } {}).outcome
      = .error (.clientException
        ("For token-based authentication you should "
          ++ "provide 'input_auth_token' and 'distil_url'.")) ∧
    (clientInit { input_auth_token := some "tok" } {}).events = [] :=
  c2_token_without_url { input_auth_token := some "tok" } {} rfl rfl

/-- C9: on every normal return the stored password field is the `password`
argument when that is truthy, and the legacy `api_key` argument otherwise
(`self.password = password or api_key`). -/
theorem c9_password_api_key_fallback (args : ClientArgs) (env : Env)
    (st : ClientState) (h : (clientInit args env).outcome = .ok st) :
    st.password = (if truthy args.password then args.password else args.api_key) := by
  unfold clientInit at h
  dsimp only at h
  split at h
  · simp at h
  · split at h
    · simp at h
    · split at h
      · simp at h
      · split at h
        · simp at h
        · simp only [Except.ok.injEq] at h
          subst h
          rfl

/-- Witness for C9: with a falsy password and a supplied api_key, the
constructed client stores the api_key as its password. -/
theorem c9_password_api_key_fallback_witness :
    ClientState.password
      { username := none, password := some "legacy-key", auth_token := some "tok",
        distil_url := some "http://distil.example", api_version := "2" }
      = (if truthy (none : Option String) then none else some "legacy-key") :=
  c9_password_api_key_fallback
    { api_key := some "legacy-key", input_auth_token := some "tok",
      distil_url := some "http://distil.example" }
    {} _ rfl

/-- C3 (counterexample to the claim as stated): a catalog whose single
entry has no `interface` field but carries the legacy endpoint-type key
`publicURL` matches nothing under the claim's interface-only predicate, so
the claim predicts fatal failure — yet construction succeeds, adopting that
entry's URL. -/
theorem c3_catalog_scan_counterexample :
    claimFirstMatch "publicURL" none [[("publicURL", "http://legacy.example")]] = none ∧
    (clientInit {}
      { ksV3Url := some "http://ks/v3", keystoneToken := some "tok",
        catalog := [[("publicURL", "http://legacy.example")]] }).outcome
      = .ok { username := none, password := none, auth_token := some "tok",
              distil_url := some "http://legacy.example", api_version := "2" } :=
  ⟨rfl, rfl⟩

/-- C3 (amended): with no session, no supplied URL and a truthy resolved
token, the outcome is decided by the first catalog entry that matches the
code's predicate — `interface` equal to the selector prefix OR a truthy
legacy endpoint-type key — and passes the region filter (`region`, with
`region_id` fallback, equal to the requested region when one is
requested): the entry's `url` value (falling back to its endpoint-type
key) becomes the client URL when truthy; otherwise — no matching entry, or
a first match with a missing or empty URL — construction fails fatally
with the descriptive endpoint error. -/
theorem c3_catalog_scan_amended (args : ClientArgs) (env : Env)
    (tok : Option String)
    (h0 : truthy args.input_auth_token = false)
    (h1 : args.useSession = false)
    (h2 : truthy args.distil_url = false)
    (h3 : (resolveToken args env).1 = .ok tok)
    (h4 : truthy tok = true) :
    (clientInit args env).outcome =
      match amendedFirstMatch args.endpoint_type args.region_name env.catalog with
      | some e =>
        if truthy (entryUrl args.endpoint_type e) then
          .ok { username := args.username,
                password := pyOr args.password args.api_key,
                auth_token := tok,
                distil_url := entryUrl args.endpoint_type e,
                api_version := args.api_version }
        else .error (.runtimeError "Could not find Distil endpoint in catalog")
      | none => .error (.runtimeError "Could not find Distil endpoint in catalog") := by
  have hru : resolveUrl args env =
      (match scanCatalog args.endpoint_type args.region_name env.catalog with
       | .found u => u
       | .nomatch => args.distil_url, [.catalogGetEndpoints]) := by
    unfold resolveUrl
    simp [h1, h2]
  unfold clientInit
  dsimp only
  rcases hrt : resolveToken args env with ⟨res, evs⟩
  rw [hrt] at h3
  dsimp only at h3
  subst h3
  rw [hru]
  rw [scanCatalog_eq_firstMatch]
  simp only [h0, Bool.false_and, Bool.false_eq_true, ite_false]
  cases hm : amendedFirstMatch args.endpoint_type args.region_name env.catalog with
  | none =>
    simp [hm, h4, h2]
  | some e =>
    by_cases hu : truthy (entryUrl args.endpoint_type e)
    · simp [hm, h4, hu]
    · simp [hm, h4, hu]

/-- Witness for C3's amended statement at a concrete catalog. -/
theorem c3_catalog_scan_amended_witness :
    (clientInit {}
      { ksV3Url := some "http://ks/v3", keystoneToken := some "tok",
        catalog := [[("interface", "public"), ("url", "http://distil.example")]] }).outcome
      = match amendedFirstMatch "publicURL" none
            [[("interface", "public"), ("url", "http://distil.example")]] with
        | some e =>
          if truthy (entryUrl "publicURL" e) then
            .ok { username := none, password := none, auth_token := some "tok",
                  distil_url := entryUrl "publicURL" e, api_version := "2" }
          else .error (.runtimeError "Could not find Distil endpoint in catalog")
        | none => .error (.runtimeError "Could not find Distil endpoint in catalog") :=
  c3_catalog_scan_amended {}
    { ksV3Url := some "http://ks/v3", keystoneToken := some "tok",
      catalog := [[("interface", "public"), ("url", "http://distil.example")]] }
    (some "tok") rfl rfl rfl rfl rfl

end Distil
